import Mathlib

/-!
Verification development for the media-bridge repository.

The definitions below are a shallow embedding of the Python sources:
`src/media_bridge/sources/base.py` (SourceState, the state-copy property,
to_dict), `src/media_bridge/mixer.py` (slew engine, external-volume handler,
edge-triggered default-volume policy, master volume), `src/media_bridge/sources/tv.py`
(silence hysteresis, auto-mute, level mapping, set_volume) and
`src/media_bridge/main.py` (MQTT command dispatch with the volume-command
rate limiter).  Machine integers are modelled as Int/Nat, Python floats as
exact rationals, dictionaries as association lists, and calls into external
systems (pactl, D-Bus, threads) as explicit parameters and event lists.
-/

namespace MediaBridge

/-! ## Association-list helpers (model of Python dict operations) -/

/-- Lookup in an association list, mirroring Python dict indexing. -/
def alookup {α : Type} : List (String × α) → String → Option α
  | [], _ => none
  | (k, v) :: r, s => if k = s then some v else alookup r s

/-- Update the (first) entry for a key in place; no-op when the key is absent.
Mirrors mutating an existing dict entry. -/
def aupdate {α : Type} (f : α → α) : List (String × α) → String → List (String × α)
  | [], _ => []
  | (k, v) :: r, s => if k = s then (k, f v) :: r else (k, v) :: aupdate f r s

/-- Remove the entry for a key; mirrors Python del d[k]. -/
def aremove {α : Type} : List (String × α) → String → List (String × α)
  | [], _ => []
  | (k, v) :: r, s => if k = s then r else (k, v) :: aremove r s

/-- Dict assignment d[k] = v: update if present, insert otherwise. -/
def aset {α : Type} : List (String × α) → String → α → List (String × α)
  | [], k, v => [(k, v)]
  | (k1, v1) :: r, k, v => if k1 = k then (k, v) :: r else (k1, v1) :: aset r k v

/-- Python d.get(k, default). -/
def agetD {α : Type} (l : List (String × α)) (k : String) (d : α) : α :=
  (alookup l k).getD d

/-- Keys of an association list. -/
def akeys {α : Type} (l : List (String × α)) : List String :=
  l.map Prod.fst

theorem alookup_none_iff {α : Type} (l : List (String × α)) (k : String) :
    alookup l k = none ↔ k ∉ akeys l := by
  induction l with
  | nil => simp [alookup, akeys]
  | cons p r ih =>
    obtain ⟨k1, v1⟩ := p
    by_cases h : k1 = k
    · subst h
      simp [alookup, akeys]
    · simp [alookup, akeys, h, ih, Ne.symm h]

theorem akeys_aupdate {α : Type} (f : α → α) (l : List (String × α)) (k : String) :
    akeys (aupdate f l k) = akeys l := by
  induction l with
  | nil => rfl
  | cons p r ih =>
    obtain ⟨k1, v1⟩ := p
    by_cases h : k1 = k
    · simp [aupdate, akeys, h]
    · simpa [aupdate, akeys, h] using ih

theorem akeys_aremove_sublist {α : Type} (l : List (String × α)) (k : String) :
    (akeys (aremove l k)).Sublist (akeys l) := by
  induction l with
  | nil => simp [aremove, akeys]
  | cons p r ih =>
    obtain ⟨k1, v1⟩ := p
    by_cases h : k1 = k
    · simp only [aremove, akeys, h, if_pos rfl, List.map_cons]
      exact (List.sublist_cons_self _ _)
    · simpa [aremove, akeys, h] using ih.cons₂ k1

theorem alookup_aupdate_self {α : Type} (f : α → α) (l : List (String × α)) (k : String) :
    alookup (aupdate f l k) k = (alookup l k).map f := by
  induction l with
  | nil => rfl
  | cons p r ih =>
    obtain ⟨k1, v1⟩ := p
    by_cases h : k1 = k <;> simp [aupdate, alookup, h, ih]

theorem alookup_aupdate_ne {α : Type} (f : α → α) (l : List (String × α)) (k k2 : String)
    (h : k2 ≠ k) : alookup (aupdate f l k) k2 = alookup l k2 := by
  induction l with
  | nil => rfl
  | cons p r ih =>
    obtain ⟨k1, v1⟩ := p
    by_cases h1 : k1 = k
    · subst h1
      simp [aupdate, alookup, Ne.symm h]
    · simp [aupdate, alookup, h1, ih]

theorem alookup_aset_self {α : Type} (l : List (String × α)) (k : String) (v : α) :
    alookup (aset l k v) k = some v := by
  induction l with
  | nil => simp [aset, alookup]
  | cons p r ih =>
    obtain ⟨k1, v1⟩ := p
    by_cases h : k1 = k
    · simp [aset, alookup, h]
    · simp [aset, alookup, h, ih]

/-! ## Rational helpers for Python numeric conversions -/

/-- Floor of a rational as an integer (flooring division of numerator by
denominator). -/
def ratFloorZ (x : ℚ) : ℤ := Int.fdiv x.num (x.den : ℤ)

/-- Python int() applied to a float: truncation toward zero. -/
def pyInt (x : ℚ) : ℤ := if 0 ≤ x then ratFloorZ x else -ratFloorZ (-x)

/-- Python round() to an integer: round half to even. -/
def pyRoundInt (x : ℚ) : ℤ :=
  let f := ratFloorZ x
  if x - (f : ℚ) = 1 / 2 then (if Int.emod f 2 = 0 then f else f + 1)
  else ratFloorZ (x + 1 / 2)

/-- Rounding to the nearest integer, half away from the floor (the usual
reading of "rounded to an integer"). -/
def specRoundZ (x : ℚ) : ℤ := ratFloorZ (x + 1 / 2)

/-- Python round(x, 1): round to one decimal digit (half to even). -/
def pyRound1 (x : ℚ) : ℚ := (pyRoundInt (x * 10) : ℚ) / 10

theorem ratFloorZ_eq_floor (x : ℚ) : ratFloorZ x = ⌊x⌋ := by
  rw [ratFloorZ, Int.fdiv_eq_ediv _ (by exact_mod_cast x.den_pos.le), Rat.floor_def]

/-! ## SourceState (sources/base.py) -/

/-- Playback states (base.py PlaybackState). -/
inductive PlaybackState
  | idle
  | playing
  | paused
deriving DecidableEq

/-- The wire value of a playback state (the .value of the Python enum). -/
def PlaybackState.value : PlaybackState → String
  | .idle => "idle"
  | .playing => "playing"
  | .paused => "paused"

/-- Values carried by state-change notifications. -/
inductive Val
  | s (x : String)
  | n (x : ℤ)
  | b (x : Bool)
  | q (x : ℚ)
deriving DecidableEq

/-- SourceState dataclass (base.py lines 30-41), with the dataclass defaults. -/
structure SourceState where
  name : String
  state : PlaybackState := .idle
  volume : ℤ := 100
  muted : Bool := false
  level : ℤ := 0
  level_db : ℚ := -100
  title : String := ""
  artist : String := ""
  lastUpdate : ℚ := 0
deriving DecidableEq

/-- The snapshot built by the AudioSource.state property (base.py lines 89-102):
a fresh SourceState listing every field explicitly except level_db, which is
therefore left at the dataclass default. -/
def stateCopy (st : SourceState) : SourceState :=
  { name := st.name
    state := st.state
    volume := st.volume
    muted := st.muted
    level := st.level
    title := st.title
    artist := st.artist
    lastUpdate := st.lastUpdate }

/-- The dictionary produced by SourceState.to_dict (base.py lines 43-53). -/
structure StateDict where
  name : String
  state : String
  volume : ℤ
  muted : Bool
  level : ℤ
  level_db : ℚ
  title : String
  artist : String
deriving DecidableEq

/-- SourceState.to_dict. -/
def SourceState.toDict (st : SourceState) : StateDict :=
  { name := st.name
    state := st.state.value
    volume := st.volume
    muted := st.muted
    level := st.level
    level_db := st.level_db
    title := st.title
    artist := st.artist }

/-- AudioMixer.get_all_states (mixer.py lines 210-212): the dict of each
source's state-property snapshot serialized by to_dict. -/
def getAllStates (sources : List (String × SourceState)) : List (String × StateDict) :=
  sources.map fun p => (p.1, (stateCopy p.2).toDict)

/-! ## Mixer slew engine (mixer.py) -/

/-- One in-flight ramp job (mixer.py _slew_state entry: target, current, active). -/
structure SlewJob where
  target : ℤ
  current : ℚ
  active : Bool
deriving DecidableEq

/-- Mixer slew bookkeeping: the job table plus the set of live ramp threads
(one list entry per running slew thread). -/
structure SlewTable where
  jobs : List (String × SlewJob)
  threads : List String
deriving DecidableEq

/-- Externally observable effects of mixer operations: a set_volume call
into a source, or a state-change notification. -/
inductive SlewEvent
  | setVolume (source : String) (v : ℤ)
  | notify (source : String) (key : String) (v : Val)
deriving DecidableEq

/-- The mixer's fixed source names (mixer.py constructor). -/
def mixerSources : List String := ["spotify", "airplay", "tv"]

/-- AudioMixer._start_slew (mixer.py lines 237-272): if the current volume
already equals the target nothing happens; if a job exists only its target is
updated; otherwise a new job is inserted and a ramp thread is spawned. -/
def startSlew (sources : List String) (st : SlewTable) (source : String)
    (currentVol target : ℤ) : SlewTable :=
  if source ∉ sources then st
  else if currentVol = target then st
  else
    match alookup st.jobs source with
    | some _ => { st with jobs := aupdate (fun j => { j with target := target }) st.jobs source }
    | none =>
        { jobs := (source, { target := target, current := (currentVol : ℚ), active := true })
            :: st.jobs
          threads := source :: st.threads }

/-- AudioMixer.stop_slew (mixer.py lines 332-336): mark the job inactive if
present; the entry is NOT removed. -/
def stopSlew (st : SlewTable) (source : String) : SlewTable :=
  { st with jobs := aupdate (fun j => { j with active := false }) st.jobs source }

/-- AudioMixer._handle_external_volume (mixer.py lines 145-162): stop any
slew for the source and republish the volume; no set_volume call is made. -/
def handleExternalVolume (st : SlewTable) (source : String) (volume : ℤ) :
    SlewTable × List SlewEvent :=
  (stopSlew st source, [.notify source "volume" (.n volume)])

/-- AudioMixer.stop (mixer.py lines 181-196), the slew part: mark every job
inactive and clear the table; live threads exit on their next iteration. -/
def mixerStop (st : SlewTable) : SlewTable :=
  { st with jobs := [] }

/-- One iteration of AudioMixer._slew_thread (mixer.py lines 274-330) for a
given source, including the thread's exit bookkeeping.  The running flag is
the mixer's _running; slewRate is %/second and one tick is 50 ms. -/
def threadTick (running : Bool) (slewRate : ℚ) (st : SlewTable) (source : String) :
    SlewTable × List SlewEvent :=
  if ¬ running then ({ st with threads := st.threads.erase source }, [])
  else
    match alookup st.jobs source with
    | none => ({ st with threads := st.threads.erase source }, [])
    | some job =>
      if job.active = false then
        -- the inactive-exit path: the thread stops but the job entry remains
        ({ st with threads := st.threads.erase source }, [])
      else
        let stepSize : ℚ := slewRate * (1 / 20)
        if job.current < (job.target : ℚ) then
          let newVol := min (job.target : ℚ) (job.current + stepSize)
          let intVol := pyRoundInt newVol
          let evs := [SlewEvent.setVolume source intVol, .notify source "volume" (.n intVol)]
          if |newVol - (job.target : ℚ)| < 1 / 2 then
            ({ jobs := aremove st.jobs source, threads := st.threads.erase source }, evs)
          else
            ({ st with jobs := aupdate (fun j => { j with current := newVol }) st.jobs source },
              evs)
        else if (job.target : ℚ) < job.current then
          let newVol := max (job.target : ℚ) (job.current - stepSize)
          let intVol := pyRoundInt newVol
          let evs := [SlewEvent.setVolume source intVol, .notify source "volume" (.n intVol)]
          if |newVol - (job.target : ℚ)| < 1 / 2 then
            ({ jobs := aremove st.jobs source, threads := st.threads.erase source }, evs)
          else
            ({ st with jobs := aupdate (fun j => { j with current := newVol }) st.jobs source },
              evs)
        else
          -- current equals target: remove the job and exit
          ({ jobs := aremove st.jobs source, threads := st.threads.erase source }, [])

/-- AudioMixer.set_source_volume (mixer.py lines 216-235).  currentVol is the
value source.get_volume() returns; srcSetOk is the result of the direct
source.set_volume call on the no-slew path. -/
def setSourceVolume (sources : List String) (slewRate : ℤ) (st : SlewTable)
    (source : String) (currentVol volume : ℤ) (useSlew : Bool) (srcSetOk : Bool) :
    SlewTable × Bool × List SlewEvent :=
  if source ∉ sources then (st, false, [])
  else
    let v := max 0 (min 100 volume)
    if ¬ useSlew ∨ slewRate ≤ 0 then (st, srcSetOk, [.setVolume source v])
    else (startSlew sources st source currentVol v, true, [])

/-- The operations that can touch the slew table. -/
inductive SlewOp
  | setVol (source : String) (currentVol volume : ℤ) (useSlew : Bool) (srcSetOk : Bool)
  | tick (running : Bool) (source : String)
  | stop (source : String)
  | extVol (source : String) (volume : ℤ)
  | mstop
deriving DecidableEq

/-- Apply one operation to the slew table. -/
def applySlewOp (sources : List String) (slewRate : ℤ) (st : SlewTable) : SlewOp → SlewTable
  | .setVol s c v u ok => (setSourceVolume sources slewRate st s c v u ok).1
  | .tick r s => (threadTick r (slewRate : ℚ) st s).1
  | .stop s => stopSlew st s
  | .extVol s v => (handleExternalVolume st s v).1
  | .mstop => mixerStop st

/-- Run a sequence of operations from the initial (empty) slew state. -/
def runSlewOps (sources : List String) (slewRate : ℤ) (ops : List SlewOp) : SlewTable :=
  ops.foldl (applySlewOp sources slewRate) { jobs := [], threads := [] }

/-! ## Master volume (mixer.py lines 468-498) -/

/-- Outcome of the pactl subprocess call: zero exit, nonzero exit, or an
exception. -/
inductive PactlResult
  | ok
  | err
  | exc
deriving DecidableEq

/-- AudioMixer.set_master_volume: clamp, store into _master_volume BEFORE the
external call, then attempt pactl; notify and return success only when pactl
exits zero.  Returns (new _master_volume, returned bool, notifications). -/
def setMasterVolume (master volume : ℤ) (r : PactlResult) : ℤ × Bool × List SlewEvent :=
  let v := max 0 (min 100 volume)
  match r with
  | .ok => (v, true, [.notify "master" "volume" (.n v)])
  | .err => (v, false, [])
  | .exc => (v, false, [])

/-- AudioMixer.get_master_volume: returns the stored _master_volume. -/
def getMasterVolume (master : ℤ) : ℤ := master

/-! ## Mixer default-volume / edge policy (mixer.py lines 103-143) -/

/-- The mixer policy state touched by _handle_source_state_change. -/
structure PolicyState where
  sources : List String
  wasActive : List (String × Bool)
  defaultVolumes : List (String × ℤ)
  resetOnStop : Bool
  slew : SlewTable
deriving DecidableEq

/-- AudioMixer._handle_source_state_change: edge-triggered default-volume
policy.  Returns the new policy state and the emitted effects, in program
order (edge actions first, then the forwarded notification). -/
def handleSourceStateChange (st : PolicyState) (source key : String) (value : Val) :
    PolicyState × List SlewEvent :=
  if key = "state" then
    let isActive := value = Val.s "playing"
    let wasActive := agetD st.wasActive source false
    if isActive ∧ wasActive = false then
      let d := agetD st.defaultVolumes source 15
      let evs := if source ∈ st.sources then
          [SlewEvent.setVolume source d, .notify source "volume" (.n d)] else []
      ({ st with wasActive := aset st.wasActive source true },
        evs ++ [.notify source key value])
    else if wasActive = true ∧ ¬ isActive then
      let st1 := { st with slew := stopSlew st.slew source }
      let d := agetD st.defaultVolumes source 15
      let evs := if st.resetOnStop ∧ source ∈ st.sources then
          [SlewEvent.setVolume source d, .notify source "volume" (.n d)] else []
      ({ st1 with wasActive := aset st1.wasActive source false },
        evs ++ [.notify source key value])
    else
      ({ st with wasActive := aset st.wasActive source (decide isActive) },
        [.notify source key value])
  else (st, [.notify source key value])

/-! ## Television source (sources/tv.py) -/

/-- Volume/mute observed on the gst-launch sink-input (parsed from pactl;
the volume is a non-negative percentage but pactl may report values above
100). -/
structure SinkInfo where
  volume : ℤ
  muted : Bool
deriving DecidableEq

/-- Result of looking for the pipeline's sink-input at the top of
TVSource._poll_state. -/
inductive SinkObs
  | noSink
  | sinkNoInfo
  | sink (info : SinkInfo)
deriving DecidableEq

/-- The debounce window after a set (tv.py _set_debounce = 0.5 s). -/
def setDebounce : ℚ := 1 / 2

/-- The TV source state touched by the metering loop and _poll_state. -/
structure TVState where
  currentLevelDb : ℚ
  lastSoundTime : ℚ
  userMuted : Bool
  silenceMuted : Bool
  autoMuteEnabled : Bool
  silenceThresholdDb : ℚ
  silenceDuration : ℚ
  volumeSetTime : ℚ
  muteSetTime : ℚ
  stState : PlaybackState
  stVolume : ℤ
  stMuted : Bool
  stLevel : ℤ
  stLevelDb : ℚ
deriving DecidableEq

/-- One chunk of the level-meter loop (tv.py _level_meter_loop lines 353-365):
store the chunk's RMS level and refresh last_sound_time when it exceeds the
silence threshold. -/
def meterStep (s : TVState) (t levelDb : ℚ) : TVState :=
  let s1 := { s with currentLevelDb := levelDb }
  if levelDb > s.silenceThresholdDb then { s1 with lastSoundTime := t } else s1

/-- TVSource._poll_state (tv.py lines 387-452).  The returned list records the
values passed to _set_sink_input_mute, in order. -/
def pollState (s : TVState) (now : ℚ) (obs : SinkObs) : TVState × List Bool :=
  match obs with
  | .noSink =>
      (if s.stState ≠ .idle then { s with stState := .idle, stLevel := 0 } else s, [])
  | .sinkNoInfo => (s, [])
  | .sink info =>
      let volume : ℤ := if now - s.volumeSetTime > setDebounce then info.volume else s.stVolume
      let timeSinceSound := now - s.lastSoundTime
      let isSilent := s.currentLevelDb ≤ s.silenceThresholdDb
      let silenceExceeded := timeSinceSound ≥ s.silenceDuration
      let branch : PlaybackState × Bool × List Bool :=
        if ¬ isSilent then
          if s.autoMuteEnabled ∧ s.silenceMuted = true then (.playing, false, [s.userMuted])
          else (.playing, s.silenceMuted, [])
        else if ¬ silenceExceeded then (.playing, s.silenceMuted, [])
        else
          if s.autoMuteEnabled ∧ s.silenceMuted = false ∧ s.userMuted = false then
            (.idle, true, [true])
          else (.idle, s.silenceMuted, [])
      let state := branch.1
      let sm := branch.2.1
      let acts := branch.2.2
      let muted := if now - s.muteSetTime > setDebounce
        then (info.muted || s.userMuted || sm) else s.stMuted
      let level0 : ℤ := max 0 (min 100 (pyInt ((s.currentLevelDb + 50) * 2)))
      let level : ℤ := if muted then 0 else level0
      let levelDb := pyRound1 s.currentLevelDb
      ({ s with stState := state, silenceMuted := sm, stVolume := volume,
                stMuted := muted, stLevel := level, stLevelDb := levelDb }, acts)

/-- One observation fed to the TV controller: the chunk's timestamp and RMS
level, and what the poll sees on the sink-input. -/
structure TVSample where
  t : ℚ
  db : ℚ
  obs : SinkObs
deriving DecidableEq

/-- Meter update followed by a poll at the same instant. -/
def tvStep (s : TVState) (x : TVSample) : TVState × List Bool :=
  pollState (meterStep s x.t x.db) x.t x.obs

/-- Run the controller over a trace, collecting all mute actions. -/
def tvRun (s : TVState) : List TVSample → TVState × List Bool
  | [] => (s, [])
  | x :: rest =>
      let r1 := tvStep s x
      let r2 := tvRun r1.1 rest
      (r2.1, r1.2 ++ r2.2)

/-- The state after each step of a trace. -/
def tvStates (s : TVState) : List TVSample → List TVState
  | [] => []
  | x :: rest =>
      let s1 := (tvStep s x).1
      s1 :: tvStates s1 rest

/-- TVSource.set_volume (tv.py lines 462-476): clamp, attempt the sink-input
write, and on success record the write time and update the state. -/
def tvSetVolume (s : TVState) (now : ℚ) (sinkFound setOk : Bool) (volume : ℤ) :
    TVState × Bool :=
  if ¬ sinkFound then (s, false)
  else
    let v := max 0 (min 100 volume)
    if setOk then ({ s with volumeSetTime := now, stVolume := v }, true)
    else (s, false)

/-- The level formula as implemented (tv.py lines 437-441): truncate toward
zero, clamp to [0,100], and force 0 under the effective mute. -/
def codeLevel (levelDb : ℚ) (muted : Bool) : ℤ :=
  if muted then 0 else max 0 (min 100 (pyInt ((levelDb + 50) * 2)))

/-- The level formula as the claim words it: clamp(0,100,(levelDb+50)*2)
rounded to the nearest integer, forced to 0 under the effective mute. -/
def claimLevel (levelDb : ℚ) (muted : Bool) : ℤ :=
  if muted then 0 else specRoundZ (max 0 (min 100 ((levelDb + 50) * 2)))

/-! ## Spotify source volume paths (sources/spotify.py) -/

/-- SpotifySource.set_volume (spotify.py lines 259-295): clamp, write to the
sink-input; the state's volume is updated only when the PulseAudio write
succeeded. -/
def spotifySetVolume (st : SourceState) (paOk : Bool) (volume : ℤ) : SourceState × Bool :=
  let v := max 0 (min 100 volume)
  if paOk then ({ st with volume := v }, true) else (st, false)

/-- The volume value SpotifySource._poll_state stores (spotify.py lines
176-185): the sink-input volume when an info block is present, the previous
state volume otherwise; no clamping is applied. -/
def spotifyObservedVolume (prev : ℤ) (info : Option SinkInfo) : ℤ :=
  match info with
  | some i => i.volume
  | none => prev

/-! ## MQTT command dispatch (main.py) -/

/-- Python str.startswith, on the character list. -/
def strStartsWith (s p : String) : Bool := p.data.isPrefixOf s.data

/-- Python str.endswith, on the character list. -/
def strEndsWith (s p : String) : Bool := p.data.isSuffixOf s.data

/-- Python s[n:] (slicing clamps like List.drop). -/
def strDrop (s : String) (n : ℕ) : String := ⟨s.data.drop n⟩

/-- Python s[:-n]. -/
def strDropRight (s : String) (n : ℕ) : String := ⟨s.data.take (s.data.length - n)⟩

/-- Python str.lower for the ASCII payloads used here. -/
def strToLower (s : String) : String := ⟨s.data.map Char.toLower⟩

/-- Digit-string to number (none when empty or a non-digit appears). -/
def digitsToNat : List Char → Option ℕ
  | [] => none
  | cs =>
      if cs.all Char.isDigit then
        some (cs.foldl (fun n c => n * 10 + (c.toNat - 48)) 0)
      else none

/-- Python int(payload) on the plain sign-and-digits forms (Python also
strips whitespace and accepts underscores, which no command uses); none
models the ValueError. -/
def strToInt (s : String) : Option ℤ :=
  match s.data with
  | '-' :: rest => (digitsToNat rest).map (fun n => -(n : ℤ))
  | '+' :: rest => (digitsToNat rest).map (fun n => (n : ℤ))
  | l => (digitsToNat l).map (fun n => (n : ℤ))

/-- The boolean payload convention (main.py): payload.lower() in
("true", "1", "yes", "on"). -/
def truthy (p : String) : Bool :=
  (strToLower p) ∈ (["true", "1", "yes", "on"] : List String)

/-- Split a character list at the dots. -/
def splitDots : List Char → List (List Char)
  | [] => [[]]
  | c :: r =>
      if c = '.' then [] :: splitDots r
      else
        match splitDots r with
        | [] => [[c]]
        | h :: t => (c :: h) :: t

/-- Decimal parse standing in for Python float(payload) on the silence-duration
branch (covers the plain sign.digits.digits forms; Python float accepts a few
more spellings, none of which the claims exercise). -/
def parseDecimal (p : String) : Option ℚ :=
  match splitDots p.data with
  | [a] => (strToInt ⟨a⟩).map (fun i => (i : ℚ))
  | [a, b] =>
      match strToInt ⟨a⟩, digitsToNat b with
      | some ia, some nb =>
          let frac : ℚ := (nb : ℚ) / ((10 : ℚ) ^ b.length)
          some (if strStartsWith ⟨a⟩ "-" then (ia : ℚ) - frac else (ia : ℚ) + frac)
      | _, _ => none
  | _ => none

/-- The rate-limiter state (main.py lines 50-54): last volume-command time per
source. -/
structure BridgeState where
  lastVolumeCmd : List (String × ℚ)
deriving DecidableEq

/-- The cooldown between volume commands per source (main.py: 0.2 s). -/
def volumeCmdCooldown : ℚ := 1 / 5

/-- The actions the command dispatcher can take. -/
inductive CmdEvent
  | cecPowerOn
  | cecStandby
  | mixSetSourceVolume (source : String) (v : ℤ)
  | rateLimited (source : String)
  | mixSetSourceMute (source : String) (m : Bool)
  | mixToggleSourceMute (source : String)
  | mixSourcePlay (source : String)
  | mixSourcePause (source : String)
  | mixSourceStop (source : String)
  | mixSetSilenceThreshold (v : ℤ)
  | mixSetSilenceDuration (v : ℚ)
  | mixSetAutoMute (b : Bool)
  | mixSetMasterVolume (v : ℤ)
  | mixSetDefaultVolume (source : String) (v : ℤ)
  | mixSetResetOnStop (b : Bool)
  | mixSetSlewRate (v : ℤ)
  | unknownCommand (c : String)
  | valueError
deriving DecidableEq

/-- MediaBridge._on_mqtt_command (main.py lines 104-208): the elif chain in
program order.  int(payload) raising ValueError is modelled by toInt? = none,
which aborts the branch without mutating any state. -/
def onMqttCommand (st : BridgeState) (now : ℚ) (command payload : String) :
    BridgeState × List CmdEvent :=
  if command = "tv_power_on" then (st, [.cecPowerOn])
  else if command = "tv_power_off" then (st, [.cecStandby])
  else if strStartsWith command "source_" && strEndsWith command "_set_volume" then
    let source := strDropRight (strDrop command 7) 11
    match strToInt payload with
    | none => (st, [.valueError])
    | some volume =>
        let lastCmd := agetD st.lastVolumeCmd source 0
        if now - lastCmd < volumeCmdCooldown then (st, [.rateLimited source])
        else ({ st with lastVolumeCmd := aset st.lastVolumeCmd source now },
              [.mixSetSourceVolume source volume])
  else if strStartsWith command "source_" && strEndsWith command "_set_mute" then
    (st, [.mixSetSourceMute (strDropRight (strDrop command 7) 9) (truthy payload)])
  else if strStartsWith command "source_" && strEndsWith command "_mute" then
    (st, [.mixToggleSourceMute (strDropRight (strDrop command 7) 5)])
  else if strStartsWith command "source_" && strEndsWith command "_play" then
    (st, [.mixSourcePlay (strDropRight (strDrop command 7) 5)])
  else if strStartsWith command "source_" && strEndsWith command "_pause" then
    (st, [.mixSourcePause (strDropRight (strDrop command 7) 6)])
  else if strStartsWith command "source_" && strEndsWith command "_stop" then
    (st, [.mixSourceStop (strDropRight (strDrop command 7) 5)])
  else if command = "tv_set_silence_threshold" then
    match strToInt payload with
    | none => (st, [.valueError])
    | some threshold => (st, [.mixSetSilenceThreshold threshold])
  else if command = "tv_set_silence_duration" then
    match parseDecimal payload with
    | none => (st, [.valueError])
    | some duration => (st, [.mixSetSilenceDuration duration])
  else if command = "tv_set_auto_mute" then (st, [.mixSetAutoMute (truthy payload)])
  else if command = "set_master_volume" then
    match strToInt payload with
    | none => (st, [.valueError])
    | some volume => (st, [.mixSetMasterVolume volume])
  else if strStartsWith command "source_" && strEndsWith command "_set_default_volume" then
    match strToInt payload with
    | none => (st, [.valueError])
    | some volume => (st, [.mixSetDefaultVolume (strDropRight (strDrop command 7) 19) volume])
  else if command = "set_reset_on_stop" then (st, [.mixSetResetOnStop (truthy payload)])
  else if command = "set_slew_rate" then
    match strToInt payload with
    | none => (st, [.valueError])
    | some rate => (st, [.mixSetSlewRate rate])
  else (st, [.unknownCommand command])

/-! ## Shared example states -/

/-- A concrete source state with all fields away from their defaults. -/
def exSource : SourceState :=
  { name := "tv", state := .playing, volume := 42, muted := false, level := 9,
    level_db := -12, title := "t", artist := "a", lastUpdate := 5 }

/-- A slew table holding one in-flight ramp (job and thread) for spotify. -/
def slewInFlight : SlewTable :=
  { jobs := [("spotify", { target := 80, current := 10, active := true })]
    threads := ["spotify"] }

/-! ## Claim C9 -/

/-- Claim C9: the state-property snapshot copies every SourceState field
except level_db, which is always the dataclass default -100.0 in the copy;
consequently get_all_states reports level_db = -100.0 for every source. -/
theorem c9_state_copy_omits_level_db :
    ∀ (s : SourceState) (l : List (String × SourceState)),
      (stateCopy s).level_db = -100 ∧
      (stateCopy s).name = s.name ∧ (stateCopy s).state = s.state ∧
      (stateCopy s).volume = s.volume ∧ (stateCopy s).muted = s.muted ∧
      (stateCopy s).level = s.level ∧ (stateCopy s).title = s.title ∧
      (stateCopy s).artist = s.artist ∧ (stateCopy s).lastUpdate = s.lastUpdate ∧
      ((stateCopy s).toDict).level_db = -100 ∧
      (∀ p ∈ getAllStates l, p.2.level_db = -100) := by
  intro s l
  refine ⟨rfl, rfl, rfl, rfl, rfl, rfl, rfl, rfl, rfl, rfl, ?_⟩
  intro p hp
  simp only [getAllStates, List.mem_map] at hp
  obtain ⟨q, _, rfl⟩ := hp
  rfl

/-- Concrete instantiation of the C9 theorem. -/
theorem c9_state_copy_omits_level_db_witness :
    (stateCopy exSource).level_db = -100 ∧
    ("tv", (stateCopy exSource).toDict).2.level_db = -100 :=
  ⟨(c9_state_copy_omits_level_db exSource [("tv", exSource)]).1,
   (c9_state_copy_omits_level_db exSource
      [("tv", exSource)]).2.2.2.2.2.2.2.2.2.2
      ("tv", (stateCopy exSource).toDict) (by simp [getAllStates])⟩

/-! ## Claim C10 -/

/-- Claim C10: set_master_volume stores clamp(0,100,v) into _master_volume
before the pactl call, so even on failure get_master_volume returns the
clamped value (no rollback); the notification is emitted only on success. -/
theorem c10_master_volume_no_rollback :
    ∀ (master volume : ℤ) (r : PactlResult),
      (setMasterVolume master volume r).1 = max 0 (min 100 volume) ∧
      getMasterVolume (setMasterVolume master volume r).1 = max 0 (min 100 volume) ∧
      (setMasterVolume master volume r).2 =
        (match r with
         | .ok => (true,
             [SlewEvent.notify "master" "volume" (.n (max 0 (min 100 volume)))])
         | .err => (false, [])
         | .exc => (false, [])) := by
  intro master volume r
  cases r <;> simp [setMasterVolume, getMasterVolume]

/-! ## Claim C2 -/

/-- Claim C2 (code bug): after _handle_external_volume the slew-job table
still contains an entry for the source.  stop_slew only clears the active
flag, and the ramp thread's inactive-exit path does not delete the entry, so
the stale job persists; a later _start_slew merely retargets the dead job and
spawns no thread, so the ramp never runs again.  The republication without a
set_volume call does hold. -/
theorem c2_external_volume_stale_job :
    (handleExternalVolume slewInFlight "spotify" 30).1.jobs =
      [("spotify", { target := 80, current := 10, active := false })] ∧
    (alookup (handleExternalVolume slewInFlight "spotify" 30).1.jobs "spotify").isSome = true ∧
    (handleExternalVolume slewInFlight "spotify" 30).2 =
      [.notify "spotify" "volume" (.n 30)] ∧
    (threadTick true 25 (handleExternalVolume slewInFlight "spotify" 30).1 "spotify").1.jobs =
      [("spotify", { target := 80, current := 10, active := false })] ∧
    (threadTick true 25 (handleExternalVolume slewInFlight "spotify" 30).1 "spotify").1.threads
      = [] ∧
    (startSlew mixerSources
        (threadTick true 25 (handleExternalVolume slewInFlight "spotify" 30).1 "spotify").1
        "spotify" 10 60).threads = [] ∧
    alookup (startSlew mixerSources
        (threadTick true 25 (handleExternalVolume slewInFlight "spotify" 30).1 "spotify").1
        "spotify" 10 60).jobs "spotify" =
      some { target := 60, current := 10, active := false } := by
  refine ⟨rfl, rfl, rfl, rfl, rfl, rfl, rfl⟩

/-! ## Claim C6 -/

/-- Claim C6, counterexample: an out-of-range volume (150) is not rejected:
set_master_volume clamps it to 100, mutates the stored master volume (50
before the call), and returns success when pactl succeeds. -/
theorem c6_out_of_range_not_rejected :
    (setMasterVolume 50 150 PactlResult.ok).2.1 = true ∧
    (setMasterVolume 50 150 PactlResult.ok).1 ≠ 50 ∧
    (setMasterVolume 50 150 PactlResult.ok).1 = 100 := by
  refine ⟨rfl, by decide, rfl⟩

/-- Claim C6 as amended: an unknown source name or a malformed payload is
rejected synchronously with a failure result (or logged ValueError) and no
state mutation, while an out-of-range volume is not rejected: it is clamped
into [0,100] and the operation proceeds, mutating state with the clamped
value. -/
theorem c6_invalid_input_handling :
    (∀ (st : SlewTable) (slewRate : ℤ) (source : String) (c v : ℤ) (u ok : Bool),
        source ∉ mixerSources →
        setSourceVolume mixerSources slewRate st source c v u ok = (st, false, [])) ∧
    (∀ (st : BridgeState) (now : ℚ) (payload : String),
        strToInt payload = none →
        onMqttCommand st now "set_master_volume" payload = (st, [.valueError])) ∧
    (∀ (st : BridgeState) (now : ℚ) (payload : String),
        strToInt payload = none →
        onMqttCommand st now "source_spotify_set_volume" payload = (st, [.valueError])) ∧
    (∀ (master volume : ℤ) (r : PactlResult), 100 < volume →
        (setMasterVolume master volume r).1 = 100) ∧
    (∀ (master volume : ℤ) (r : PactlResult), volume < 0 →
        (setMasterVolume master volume r).1 = 0) := by
  refine ⟨?_, ?_, ?_, ?_, ?_⟩
  · intro st slewRate source c v u ok h
    simp [setSourceVolume, h]
  · intro st now payload h
    simp +decide [onMqttCommand, h]
  · intro st now payload h
    simp +decide [onMqttCommand, h]
  · intro master volume r h
    cases r <;> simp [setMasterVolume] <;> omega
  · intro master volume r h
    cases r <;> simp [setMasterVolume] <;> omega

/-- Concrete instantiation of the amended C6 theorem. -/
theorem c6_invalid_input_handling_witness :
    setSourceVolume mixerSources 25 { jobs := [], threads := [] } "cdplayer" 10 50 true true
      = ({ jobs := [], threads := [] }, false, []) ∧
    onMqttCommand { lastVolumeCmd := [] } 10 "set_master_volume" "abc"
      = ({ lastVolumeCmd := [] }, [.valueError]) ∧
    onMqttCommand { lastVolumeCmd := [] } 10 "source_spotify_set_volume" "5x"
      = ({ lastVolumeCmd := [] }, [.valueError]) ∧
    (setMasterVolume 30 150 PactlResult.err).1 = 100 ∧
    (setMasterVolume 30 (-7) PactlResult.ok).1 = 0 :=
  ⟨c6_invalid_input_handling.1 _ 25 "cdplayer" 10 50 true true (by decide),
   c6_invalid_input_handling.2.1 _ 10 "abc" (by decide),
   c6_invalid_input_handling.2.2.1 _ 10 "5x" (by decide),
   c6_invalid_input_handling.2.2.2.1 30 150 PactlResult.err (by decide),
   c6_invalid_input_handling.2.2.2.2 30 (-7) PactlResult.ok (by decide)⟩

/-! ## Claim C7 -/

theorem pyInt_eq (x : ℚ) : pyInt x = if 0 ≤ x then ⌊x⌋ else -⌊-x⌋ := by
  rw [pyInt, ratFloorZ_eq_floor, ratFloorZ_eq_floor]

theorem specRoundZ_eq (x : ℚ) : specRoundZ x = ⌊x + 1 / 2⌋ := by
  rw [specRoundZ, ratFloorZ_eq_floor]

/-- A TV state mid-playback: level -49.7 dB, nothing muted, debounce windows
long expired. -/
def tvStateEx : TVState :=
  { currentLevelDb := -497/10, lastSoundTime := 10, userMuted := false,
    silenceMuted := false, autoMuteEnabled := true, silenceThresholdDb := -50,
    silenceDuration := 3, volumeSetTime := 0, muteSetTime := 0,
    stState := .playing, stVolume := 50, stMuted := false, stLevel := 0,
    stLevelDb := -100 }

/-- Claim C7, counterexample: at level -49.7 dB (not muted) the code publishes
level 0 because Python int() truncates (0.6 → 0), while the claim's
clamp-then-round formula gives 1. -/
theorem c7_level_not_rounded :
    (pollState tvStateEx 10 (.sink { volume := 40, muted := false })).1.stMuted = false ∧
    (pollState tvStateEx 10 (.sink { volume := 40, muted := false })).1.stLevel = 0 ∧
    claimLevel tvStateEx.currentLevelDb false = 1 ∧
    (pollState tvStateEx 10 (.sink { volume := 40, muted := false })).1.stLevel ≠
      claimLevel tvStateEx.currentLevelDb false := by
  have h1 : (pollState tvStateEx 10 (.sink { volume := 40, muted := false })).1.stMuted
      = false := by
    norm_num [pollState, tvStateEx, setDebounce]
  have h2 : (pollState tvStateEx 10 (.sink { volume := 40, muted := false })).1.stLevel
      = 0 := by
    norm_num [pollState, tvStateEx, setDebounce, pyInt_eq, Int.floor_eq_iff]
  have h3 : claimLevel tvStateEx.currentLevelDb false = 1 := by
    norm_num [claimLevel, tvStateEx, specRoundZ_eq, max_def, min_def, Int.floor_eq_iff]
  exact ⟨h1, h2, h3, by rw [h2, h3]; decide⟩

/-- Claim C7 as amended: in PCM mode the published level equals
max(0, min(100, trunc((levelDb+50)*2))) with truncation toward zero (Python
int()), forced to 0 whenever the effective mute
(observed-mute OR user-mute OR silence-mute) is true. -/
theorem c7_level_mapping :
    ∀ (s : TVState) (now : ℚ) (info : SinkInfo),
      now - s.muteSetTime > setDebounce →
      (pollState s now (.sink info)).1.stMuted
        = (info.muted || s.userMuted || (pollState s now (.sink info)).1.silenceMuted) ∧
      (pollState s now (.sink info)).1.stLevel
        = codeLevel s.currentLevelDb ((pollState s now (.sink info)).1.stMuted) := by
  intro s now info hm
  simp only [pollState, codeLevel]
  split_ifs <;> simp_all

/-- Concrete instantiation of the amended C7 theorem. -/
theorem c7_level_mapping_witness :
    (10 : ℚ) - tvStateEx.muteSetTime > setDebounce ∧
    ((pollState tvStateEx 10 (.sink { volume := 40, muted := false })).1.stMuted
      = (false || tvStateEx.userMuted ||
          (pollState tvStateEx 10 (.sink { volume := 40, muted := false })).1.silenceMuted)) ∧
    ((pollState tvStateEx 10 (.sink { volume := 40, muted := false })).1.stLevel
      = codeLevel tvStateEx.currentLevelDb
          ((pollState tvStateEx 10 (.sink { volume := 40, muted := false })).1.stMuted)) := by
  have hm : (10 : ℚ) - tvStateEx.muteSetTime > setDebounce := by
    norm_num [tvStateEx, setDebounce]
  exact ⟨hm, c7_level_mapping tvStateEx 10 { volume := 40, muted := false } hm⟩

/-! ## Claim C5 -/

/-- Claim C5, counterexample: the TV polling loop stores the sink-input
volume it observes without clamping, so an observed 150% breaks the 0-100
invariant (tv.py lines 403-407 feed info volume straight into the state). -/
theorem c5_poll_volume_unclamped :
    (pollState tvStateEx 10 (.sink { volume := 150, muted := false })).1.stVolume = 150 ∧
    ¬ ((pollState tvStateEx 10 (.sink { volume := 150, muted := false })).1.stVolume ≤ 100) := by
  have h1 : (pollState tvStateEx 10 (.sink { volume := 150, muted := false })).1.stVolume
      = 150 := by
    norm_num [pollState, tvStateEx, setDebounce]
  exact ⟨h1, by rw [h1]; decide⟩

/-- Claim C5 as amended: all requested-volume paths (mixer set paths and the
sources' set_volume implementations) clamp into [0,100] at every mutation,
while the polling loops store the observed value unclamped, so the invariant
holds at poll sites only when the underlying audio system reports a volume of
at most 100 (non-negativity is guaranteed by the digit-only parse). -/
theorem c5_volume_range :
    (∀ (st : SlewTable) (slewRate : ℤ) (source : String) (c v : ℤ) (ok : Bool),
        source ∈ mixerSources →
        (setSourceVolume mixerSources slewRate st source c v false ok).2.2 =
          [.setVolume source (max 0 (min 100 v))] ∧
        0 ≤ max 0 (min 100 v) ∧ max 0 (min 100 v) ≤ 100) ∧
    (∀ (s : TVState) (now : ℚ) (sf ok : Bool) (v : ℤ),
        0 ≤ s.stVolume → s.stVolume ≤ 100 →
        0 ≤ (tvSetVolume s now sf ok v).1.stVolume ∧
        (tvSetVolume s now sf ok v).1.stVolume ≤ 100) ∧
    (∀ (st : SourceState) (ok : Bool) (v : ℤ),
        0 ≤ st.volume → st.volume ≤ 100 →
        0 ≤ (spotifySetVolume st ok v).1.volume ∧
        (spotifySetVolume st ok v).1.volume ≤ 100) ∧
    (∀ (s : TVState) (now : ℚ) (info : SinkInfo),
        0 ≤ s.stVolume → s.stVolume ≤ 100 →
        0 ≤ info.volume → info.volume ≤ 100 →
        0 ≤ (pollState s now (.sink info)).1.stVolume ∧
        (pollState s now (.sink info)).1.stVolume ≤ 100) ∧
    (∀ (prev : ℤ) (info : Option SinkInfo),
        0 ≤ prev → prev ≤ 100 →
        (∀ i, info = some i → 0 ≤ i.volume ∧ i.volume ≤ 100) →
        0 ≤ spotifyObservedVolume prev info ∧ spotifyObservedVolume prev info ≤ 100) := by
  refine ⟨?_, ?_, ?_, ?_, ?_⟩
  · intro st slewRate source c v ok h
    refine ⟨by simp [setSourceVolume, h], by omega, by omega⟩
  · intro s now sf ok v h1 h2
    unfold tvSetVolume
    split_ifs <;> simp <;> omega
  · intro st ok v h1 h2
    unfold spotifySetVolume
    split_ifs <;> simp <;> omega
  · intro s now info h1 h2 h3 h4
    simp only [pollState]
    split_ifs <;> simp_all
  · intro prev info h1 h2 h3
    cases info with
    | none => simpa [spotifyObservedVolume] using ⟨h1, h2⟩
    | some i => simpa [spotifyObservedVolume] using h3 i rfl

/-- Concrete instantiation of the amended C5 theorem. -/
theorem c5_volume_range_witness :
    ((setSourceVolume mixerSources 0 { jobs := [], threads := [] }
        "spotify" 10 150 false true).2.2 = [.setVolume "spotify" 100]) ∧
    (0 ≤ (tvSetVolume tvStateEx 10 true true 150).1.stVolume ∧
      (tvSetVolume tvStateEx 10 true true 150).1.stVolume ≤ 100) ∧
    (0 ≤ (pollState tvStateEx 10 (.sink { volume := 90, muted := false })).1.stVolume ∧
      (pollState tvStateEx 10 (.sink { volume := 90, muted := false })).1.stVolume ≤ 100) := by
  refine ⟨?_, ?_, ?_⟩
  · have h := (c5_volume_range.1 { jobs := [], threads := [] } 0 "spotify" 10 150 true
      (by decide)).1
    simpa using h
  · exact c5_volume_range.2.1 tvStateEx 10 true true 150 (by decide) (by decide)
  · exact c5_volume_range.2.2.2.1 tvStateEx 10 { volume := 90, muted := false }
      (by decide) (by decide) (by decide) (by decide)

/-! ## Claim C8 -/

/-- Claim C8, counterexample: two set_mute commands for the same source 50 ms
apart (cooldown 200 ms) are BOTH applied — only the volume-set verb is
rate-limited, so the claimed per-source-and-verb rate limit does not hold for
other verbs. -/
theorem c8_mute_commands_not_rate_limited :
    (onMqttCommand { lastVolumeCmd := [] } 10 "source_tv_set_mute" "true").2 =
      [.mixSetSourceMute "tv" true] ∧
    (onMqttCommand { lastVolumeCmd := [] } 10 "source_tv_set_mute" "true").1 =
      { lastVolumeCmd := [] } ∧
    (onMqttCommand
        (onMqttCommand { lastVolumeCmd := [] } 10 "source_tv_set_mute" "true").1
        (201/20) "source_tv_set_mute" "true").2 =
      [.mixSetSourceMute "tv" true] ∧
    (onMqttCommand
        (onMqttCommand { lastVolumeCmd := [] } 10 "source_tv_set_mute" "true").1
        (201/20) "source_tv_set_mute" "true").2 ≠ [.rateLimited "tv"] := by
  refine ⟨rfl, rfl, rfl, by decide⟩

/-- Claim C8 as amended: only the volume-set verb is rate-limited, keyed per
source with a 200 ms cooldown: of two volume-set commands for the same source
inside the cooldown, the first is applied (recording its arrival time) and the
second is dropped with no state change (not queued); commands with other
verbs such as set_mute are applied on every arrival, bypassing the rate
limiter. -/
theorem c8_rate_limit_volume_only :
    (∀ (st : BridgeState) (t1 t2 : ℚ) (command payload : String) (v : ℤ),
        strStartsWith command "source_" = true →
        strEndsWith command "_set_volume" = true →
        strToInt payload = some v →
        t1 - agetD st.lastVolumeCmd (strDropRight (strDrop command 7) 11) 0 ≥
          volumeCmdCooldown →
        t2 - t1 < volumeCmdCooldown →
        onMqttCommand st t1 command payload =
          ({ lastVolumeCmd :=
              aset st.lastVolumeCmd (strDropRight (strDrop command 7) 11) t1 },
            [.mixSetSourceVolume (strDropRight (strDrop command 7) 11) v]) ∧
        onMqttCommand
            { lastVolumeCmd :=
              aset st.lastVolumeCmd (strDropRight (strDrop command 7) 11) t1 }
            t2 command payload =
          ({ lastVolumeCmd :=
              aset st.lastVolumeCmd (strDropRight (strDrop command 7) 11) t1 },
            [.rateLimited (strDropRight (strDrop command 7) 11)])) ∧
    (∀ (st : BridgeState) (now : ℚ) (command payload : String),
        strStartsWith command "source_" = true →
        strEndsWith command "_set_mute" = true →
        strEndsWith command "_set_volume" = false →
        onMqttCommand st now command payload =
          (st, [.mixSetSourceMute (strDropRight (strDrop command 7) 9) (truthy payload)])) := by
  constructor
  · intro st t1 t2 command payload v hS hE hv hfree hclose
    have hc1 : command ≠ "tv_power_on" := by
      rintro rfl; exact absurd hS (by decide)
    have hc2 : command ≠ "tv_power_off" := by
      rintro rfl; exact absurd hS (by decide)
    have hcond : (strStartsWith command "source_" && strEndsWith command "_set_volume")
        = true := by rw [hS, hE]; rfl
    constructor
    · simp only [onMqttCommand, if_neg hc1, if_neg hc2, if_pos hcond, hv]
      rw [if_neg (not_lt.mpr hfree)]
    · simp only [onMqttCommand, if_neg hc1, if_neg hc2, if_pos hcond, hv]
      rw [if_pos]
      simpa [agetD, alookup_aset_self] using hclose
  · intro st now command payload hS hM hV
    have hc1 : command ≠ "tv_power_on" := by
      rintro rfl; exact absurd hS (by decide)
    have hc2 : command ≠ "tv_power_off" := by
      rintro rfl; exact absurd hS (by decide)
    have hcond3 : (strStartsWith command "source_" && strEndsWith command "_set_volume")
        = false := by rw [hV, Bool.and_false]
    have hcond4 : (strStartsWith command "source_" && strEndsWith command "_set_mute")
        = true := by rw [hS, hM]; rfl
    simp only [onMqttCommand, if_neg hc1, if_neg hc2, hcond3, Bool.false_eq_true,
      if_false, if_pos hcond4]

/-- Concrete instantiation of the amended C8 theorem: two volume commands for
spotify at t=10 and t=10.05. -/
theorem c8_rate_limit_volume_only_witness :
    onMqttCommand { lastVolumeCmd := [] } 10 "source_spotify_set_volume" "50" =
      ({ lastVolumeCmd := [("spotify", 10)] }, [.mixSetSourceVolume "spotify" 50]) ∧
    onMqttCommand { lastVolumeCmd := [("spotify", 10)] } (201/20)
        "source_spotify_set_volume" "50" =
      ({ lastVolumeCmd := [("spotify", 10)] }, [.rateLimited "spotify"]) ∧
    onMqttCommand { lastVolumeCmd := [] } 10 "source_tv_set_mute" "on" =
      ({ lastVolumeCmd := [] }, [.mixSetSourceMute "tv" true]) := by
  have h := c8_rate_limit_volume_only.1 { lastVolumeCmd := [] } 10 (201/20)
    "source_spotify_set_volume" "50" 50 (by decide) (by decide) (by decide)
    (by norm_num [agetD, alookup, volumeCmdCooldown])
    (by norm_num [volumeCmdCooldown])
  have h2 := c8_rate_limit_volume_only.2 { lastVolumeCmd := [] } 10
    "source_tv_set_mute" "on" (by decide) (by decide) (by decide)
  exact ⟨h.1, h.2, h2⟩

/-! ## Claim C1 -/

theorem startSlew_nodup (sources : List String) (st : SlewTable) (source : String)
    (c t : ℤ) (h : (akeys st.jobs).Nodup) :
    (akeys (startSlew sources st source c t).jobs).Nodup := by
  unfold startSlew
  by_cases h1 : source ∉ sources
  · rw [if_pos h1]; exact h
  · rw [if_neg h1]
    by_cases h2 : c = t
    · rw [if_pos h2]; exact h
    · rw [if_neg h2]
      cases hl : alookup st.jobs source with
      | some j => simpa [akeys_aupdate] using h
      | none =>
          exact List.nodup_cons.mpr ⟨(alookup_none_iff st.jobs source).mp hl, h⟩

theorem threadTick_jobs_cases (r : Bool) (rate : ℚ) (st : SlewTable) (s : String) :
    (threadTick r rate st s).1.jobs = st.jobs ∨
    (threadTick r rate st s).1.jobs = aremove st.jobs s ∨
    ∃ f, (threadTick r rate st s).1.jobs = aupdate f st.jobs s := by
  unfold threadTick
  by_cases h1 : ¬ r = true
  · rw [if_pos h1]; left; rfl
  · rw [if_neg h1]
    cases hl : alookup st.jobs s with
    | none => left; rfl
    | some job =>
        dsimp only
        split_ifs
        all_goals first
          | (left; rfl)
          | (right; left; rfl)
          | (right; right; exact ⟨_, rfl⟩)

theorem applySlewOp_nodup (sources : List String) (slewRate : ℤ) (st : SlewTable)
    (op : SlewOp) (h : (akeys st.jobs).Nodup) :
    (akeys (applySlewOp sources slewRate st op).jobs).Nodup := by
  cases op with
  | setVol s c v u ok =>
      simp only [applySlewOp, setSourceVolume]
      split_ifs
      · exact h
      · exact startSlew_nodup sources st s c _ h
      · exact h
  | tick r s =>
      rcases threadTick_jobs_cases r (slewRate : ℚ) st s with hc | hc | ⟨f, hc⟩
      · simpa [applySlewOp, hc] using h
      · simp only [applySlewOp, hc]
        exact h.sublist (akeys_aremove_sublist st.jobs s)
      · simpa [applySlewOp, hc, akeys_aupdate] using h
  | stop s => simpa [applySlewOp, stopSlew, akeys_aupdate] using h
  | extVol s v =>
      simpa [applySlewOp, handleExternalVolume, stopSlew, akeys_aupdate] using h
  | mstop => simp [applySlewOp, mixerStop, akeys]

theorem runSlewOps_nodup (sources : List String) (slewRate : ℤ) (ops : List SlewOp) :
    (akeys (runSlewOps sources slewRate ops).jobs).Nodup := by
  have main : ∀ (st : SlewTable), (akeys st.jobs).Nodup →
      (akeys (ops.foldl (applySlewOp sources slewRate) st).jobs).Nodup := by
    induction ops with
    | nil => intro st h; exact h
    | cons op rest ih =>
        intro st h
        exact ih _ (applySlewOp_nodup sources slewRate st op h)
  exact main { jobs := [], threads := [] } (by simp [akeys])

/-- Claim C1: in every state reachable by a sequence of slew-table operations
there is at most one ramp job per source (the key occurs at most once in the
job table), and a _start_slew call that finds an existing job only rewrites
that job's target: the thread list is untouched (no second ramp thread), the
key multiset is unchanged (no second job), the job for the source keeps its
current and active fields, and every other source's entry is untouched. -/
theorem c1_slew_job_unique :
    (∀ (sources : List String) (slewRate : ℤ) (ops : List SlewOp) (source : String),
        (akeys (runSlewOps sources slewRate ops).jobs).count source ≤ 1) ∧
    (∀ (sources : List String) (st : SlewTable) (source : String) (c t : ℤ)
        (job : SlewJob),
        source ∈ sources → alookup st.jobs source = some job → c ≠ t →
        (startSlew sources st source c t).threads = st.threads ∧
        akeys (startSlew sources st source c t).jobs = akeys st.jobs ∧
        alookup (startSlew sources st source c t).jobs source =
          some { job with target := t } ∧
        (∀ other, other ≠ source →
          alookup (startSlew sources st source c t).jobs other =
            alookup st.jobs other)) := by
  constructor
  · intro sources slewRate ops source
    exact List.nodup_iff_count_le_one.mp (runSlewOps_nodup sources slewRate ops) source
  · intro sources st source c t job hmem hl hct
    have hss : startSlew sources st source c t =
        { st with jobs := aupdate (fun j => { j with target := t }) st.jobs source } := by
      unfold startSlew
      rw [if_neg (by simpa using hmem), if_neg hct, hl]
    refine ⟨by rw [hss], by rw [hss]; exact akeys_aupdate _ _ _, ?_, ?_⟩
    · rw [hss]
      simp only
      rw [alookup_aupdate_self, hl]
      rfl
    · intro other hother
      rw [hss]
      simp only
      exact alookup_aupdate_ne _ _ _ _ hother

/-- Concrete instantiation of the C1 theorem at the in-flight table. -/
theorem c1_slew_job_unique_witness :
    (akeys (runSlewOps mixerSources 25
        [.setVol "spotify" 10 80 true true, .extVol "spotify" 30]).jobs).count "spotify"
      ≤ 1 ∧
    (startSlew mixerSources slewInFlight "spotify" 10 60).threads = slewInFlight.threads ∧
    alookup (startSlew mixerSources slewInFlight "spotify" 10 60).jobs "spotify" =
      some { target := 60, current := 10, active := true } :=
  ⟨c1_slew_job_unique.1 mixerSources 25 [.setVol "spotify" 10 80 true true,
      .extVol "spotify" 30] "spotify",
   (c1_slew_job_unique.2 mixerSources slewInFlight "spotify" 10 60
      { target := 80, current := 10, active := true } (by decide) rfl (by decide)).1,
   (c1_slew_job_unique.2 mixerSources slewInFlight "spotify" 10 60
      { target := 80, current := 10, active := true } (by decide) rfl (by decide)).2.2.1⟩

/-! ## Claim C3 -/

/-- Claim C3: the default-volume policy is edge-triggered.  Rising edge
(Playing while was-inactive): apply the default volume and republish it.
Falling edge: mark any ramp job inactive and, when reset-on-stop is on, apply
and republish the default; with reset-on-stop off only the forwarded
notification is emitted.  Non-edge state notifications emit only the
forwarded notification and change nothing but the was-active flag, and the
was-active flag always ends up equal to (value = "playing"). -/
theorem c3_edge_triggered_policy :
    (∀ (st : PolicyState) (source : String) (value : Val),
        value = Val.s "playing" → agetD st.wasActive source false = false →
        source ∈ st.sources →
        handleSourceStateChange st source "state" value =
          ({ st with wasActive := aset st.wasActive source true },
           [.setVolume source (agetD st.defaultVolumes source 15),
            .notify source "volume" (.n (agetD st.defaultVolumes source 15)),
            .notify source "state" value])) ∧
    (∀ (st : PolicyState) (source : String) (value : Val),
        value ≠ Val.s "playing" → agetD st.wasActive source false = true →
        source ∈ st.sources → st.resetOnStop = true →
        handleSourceStateChange st source "state" value =
          ({ st with slew := stopSlew st.slew source,
                     wasActive := aset st.wasActive source false },
           [.setVolume source (agetD st.defaultVolumes source 15),
            .notify source "volume" (.n (agetD st.defaultVolumes source 15)),
            .notify source "state" value])) ∧
    (∀ (st : PolicyState) (source : String) (value : Val),
        value ≠ Val.s "playing" → agetD st.wasActive source false = true →
        st.resetOnStop = false →
        handleSourceStateChange st source "state" value =
          ({ st with slew := stopSlew st.slew source,
                     wasActive := aset st.wasActive source false },
           [.notify source "state" value])) ∧
    (∀ (st : PolicyState) (source : String) (value : Val),
        ((value = Val.s "playing") ↔ (agetD st.wasActive source false = true)) →
        handleSourceStateChange st source "state" value =
          ({ st with
              wasActive := aset st.wasActive source (decide (value = Val.s "playing")) },
           [.notify source "state" value])) ∧
    (∀ (st : PolicyState) (source : String) (value : Val),
        agetD (handleSourceStateChange st source "state" value).1.wasActive source false
          = decide (value = Val.s "playing")) := by
  refine ⟨?_, ?_, ?_, ?_, ?_⟩
  · intro st source value h1 h2 h3
    simp [handleSourceStateChange, h1, h2, h3]
  · intro st source value h1 h2 h3 h4
    simp [handleSourceStateChange, h1, h2, h3, h4]
  · intro st source value h1 h2 h3
    simp [handleSourceStateChange, h1, h2, h3]
  · intro st source value h1
    by_cases hv : value = Val.s "playing"
    · have hw : agetD st.wasActive source false = true := h1.mp hv
      simp [handleSourceStateChange, hv, hw]
    · have hw : agetD st.wasActive source false = false := by
        cases hb : agetD st.wasActive source false
        · rfl
        · exact absurd (h1.mpr hb) hv
      simp [handleSourceStateChange, hv, hw]
  · intro st source value
    by_cases hv : value = Val.s "playing" <;>
      cases hb : agetD st.wasActive source false <;>
        simp only [agetD] at hb <;>
          simp [handleSourceStateChange, hv, hb, agetD, alookup_aset_self]

/-- Concrete instantiation of the C3 theorem: spotify goes Idle→Playing→
Playing→Idle with reset-on-stop on. -/
theorem c3_edge_triggered_policy_witness :
    handleSourceStateChange
        { sources := mixerSources, wasActive := [("spotify", false)],
          defaultVolumes := [("spotify", 15)], resetOnStop := true,
          slew := { jobs := [], threads := [] } }
        "spotify" "state" (.s "playing") =
      ({ sources := mixerSources, wasActive := [("spotify", true)],
         defaultVolumes := [("spotify", 15)], resetOnStop := true,
         slew := { jobs := [], threads := [] } },
       [.setVolume "spotify" 15, .notify "spotify" "volume" (.n 15),
        .notify "spotify" "state" (.s "playing")]) ∧
    handleSourceStateChange
        { sources := mixerSources, wasActive := [("spotify", true)],
          defaultVolumes := [("spotify", 15)], resetOnStop := true,
          slew := { jobs := [], threads := [] } }
        "spotify" "state" (.s "playing") =
      ({ sources := mixerSources, wasActive := [("spotify", true)],
         defaultVolumes := [("spotify", 15)], resetOnStop := true,
         slew := { jobs := [], threads := [] } },
       [.notify "spotify" "state" (.s "playing")]) ∧
    handleSourceStateChange
        { sources := mixerSources, wasActive := [("spotify", true)],
          defaultVolumes := [("spotify", 15)], resetOnStop := true,
          slew := slewInFlight }
        "spotify" "state" (.s "idle") =
      ({ sources := mixerSources, wasActive := [("spotify", false)],
         defaultVolumes := [("spotify", 15)], resetOnStop := true,
         slew := { jobs := [("spotify", { target := 80, current := 10, active := false })],
                   threads := ["spotify"] } },
       [.setVolume "spotify" 15, .notify "spotify" "volume" (.n 15),
        .notify "spotify" "state" (.s "idle")]) :=
  ⟨c3_edge_triggered_policy.1 _ "spotify" (.s "playing") rfl rfl (by decide),
   c3_edge_triggered_policy.2.2.2.1 _ "spotify" (.s "playing") (by decide),
   c3_edge_triggered_policy.2.1 _ "spotify" (.s "idle") (by decide) rfl (by decide) rfl⟩

/-! ## Claim C4 -/

theorem chainLe_cons_of_le {a b : ℚ} {l : List ℚ} (hab : a ≤ b)
    (h : List.Chain' (· ≤ ·) (b :: l)) : List.Chain' (· ≤ ·) (a :: l) := by
  cases l with
  | nil => simp
  | cons c l2 =>
      rw [List.chain'_cons] at h ⊢
      exact ⟨hab.trans h.1, h.2⟩

theorem tvStep_loud_noMute (s : TVState) (x : TVSample) (i : SinkInfo)
    (hobs : x.obs = SinkObs.sink i) (hsm : s.silenceMuted = false)
    (hloud : s.silenceThresholdDb < x.db) :
    (tvStep s x).2 = [] ∧
    (tvStep s x).1.stState = PlaybackState.playing ∧
    (tvStep s x).1.silenceMuted = false ∧
    (tvStep s x).1.lastSoundTime = x.t ∧
    (tvStep s x).1.silenceThresholdDb = s.silenceThresholdDb ∧
    (tvStep s x).1.silenceDuration = s.silenceDuration ∧
    (tvStep s x).1.userMuted = s.userMuted ∧
    (tvStep s x).1.autoMuteEnabled = s.autoMuteEnabled := by
  have hm : meterStep s x.t x.db =
      { s with currentLevelDb := x.db, lastSoundTime := x.t } := by
    simp [meterStep, hloud]
  have hns : ¬ (x.db ≤ s.silenceThresholdDb) := not_le.mpr hloud
  simp [tvStep, hobs, hm, pollState, hns, hsm]

theorem tvStep_loud_resume (s : TVState) (x : TVSample) (i : SinkInfo)
    (hobs : x.obs = SinkObs.sink i) (hsm : s.silenceMuted = true)
    (hA : s.autoMuteEnabled = true)
    (hloud : s.silenceThresholdDb < x.db) :
    (tvStep s x).2 = [s.userMuted] ∧
    (tvStep s x).1.stState = PlaybackState.playing ∧
    (tvStep s x).1.silenceMuted = false ∧
    (tvStep s x).1.lastSoundTime = x.t ∧
    (tvStep s x).1.silenceThresholdDb = s.silenceThresholdDb ∧
    (tvStep s x).1.silenceDuration = s.silenceDuration ∧
    (tvStep s x).1.userMuted = s.userMuted ∧
    (tvStep s x).1.autoMuteEnabled = s.autoMuteEnabled := by
  have hm : meterStep s x.t x.db =
      { s with currentLevelDb := x.db, lastSoundTime := x.t } := by
    simp [meterStep, hloud]
  have hns : ¬ (x.db ≤ s.silenceThresholdDb) := not_le.mpr hloud
  simp [tvStep, hobs, hm, pollState, hns, hsm, hA]

theorem tvStep_silent_short (s : TVState) (x : TVSample) (i : SinkInfo)
    (hobs : x.obs = SinkObs.sink i)
    (hs : x.db ≤ s.silenceThresholdDb)
    (hshort : x.t - s.lastSoundTime < s.silenceDuration) :
    (tvStep s x).2 = [] ∧
    (tvStep s x).1.stState = PlaybackState.playing ∧
    (tvStep s x).1.silenceMuted = s.silenceMuted ∧
    (tvStep s x).1.lastSoundTime = s.lastSoundTime ∧
    (tvStep s x).1.silenceThresholdDb = s.silenceThresholdDb ∧
    (tvStep s x).1.silenceDuration = s.silenceDuration ∧
    (tvStep s x).1.userMuted = s.userMuted ∧
    (tvStep s x).1.autoMuteEnabled = s.autoMuteEnabled := by
  have hm : meterStep s x.t x.db = { s with currentLevelDb := x.db } := by
    simp [meterStep, not_lt.mpr hs]
  have hne : ¬ (x.t - s.lastSoundTime ≥ s.silenceDuration) := not_le.mpr hshort
  simp [tvStep, hobs, hm, pollState, hs, hne]

theorem tvStep_silence_engage (s : TVState) (x : TVSample) (i : SinkInfo)
    (hobs : x.obs = SinkObs.sink i)
    (hs : x.db ≤ s.silenceThresholdDb)
    (hlong : x.t - s.lastSoundTime ≥ s.silenceDuration)
    (hA : s.autoMuteEnabled = true) (hsm : s.silenceMuted = false)
    (hum : s.userMuted = false) :
    (tvStep s x).2 = [true] ∧
    (tvStep s x).1.stState = PlaybackState.idle ∧
    (tvStep s x).1.silenceMuted = true ∧
    (tvStep s x).1.lastSoundTime = s.lastSoundTime ∧
    (tvStep s x).1.silenceThresholdDb = s.silenceThresholdDb ∧
    (tvStep s x).1.silenceDuration = s.silenceDuration ∧
    (tvStep s x).1.userMuted = s.userMuted ∧
    (tvStep s x).1.autoMuteEnabled = s.autoMuteEnabled := by
  have hm : meterStep s x.t x.db = { s with currentLevelDb := x.db } := by
    simp [meterStep, not_lt.mpr hs]
  simp [tvStep, hobs, hm, pollState, hs, hlong, hA, hsm, hum]

theorem tvStep_silence_already (s : TVState) (x : TVSample) (i : SinkInfo)
    (hobs : x.obs = SinkObs.sink i)
    (hs : x.db ≤ s.silenceThresholdDb)
    (hlong : x.t - s.lastSoundTime ≥ s.silenceDuration)
    (hsm : s.silenceMuted = true) :
    (tvStep s x).2 = [] ∧
    (tvStep s x).1.stState = PlaybackState.idle ∧
    (tvStep s x).1.silenceMuted = true ∧
    (tvStep s x).1.lastSoundTime = s.lastSoundTime ∧
    (tvStep s x).1.silenceThresholdDb = s.silenceThresholdDb ∧
    (tvStep s x).1.silenceDuration = s.silenceDuration ∧
    (tvStep s x).1.userMuted = s.userMuted ∧
    (tvStep s x).1.autoMuteEnabled = s.autoMuteEnabled := by
  have hm : meterStep s x.t x.db = { s with currentLevelDb := x.db } := by
    simp [meterStep, not_lt.mpr hs]
  simp [tvStep, hobs, hm, pollState, hs, hlong, hsm]

theorem tvRun_brief (tr : List TVSample) : ∀ (s : TVState),
    s.silenceMuted = false →
    List.Chain' (· ≤ ·) (s.lastSoundTime :: tr.map TVSample.t) →
    (∀ pre x post, tr = pre ++ x :: post → x.db ≤ s.silenceThresholdDb →
        x.t - s.lastSoundTime < s.silenceDuration ∨
        ∃ y ∈ pre, s.silenceThresholdDb < y.db ∧ x.t - y.t < s.silenceDuration) →
    (∀ x ∈ tr, ∃ i, x.obs = SinkObs.sink i) →
    (tvRun s tr).2 = [] ∧
    (∀ s2 ∈ tvStates s tr, s2.stState = PlaybackState.playing ∧ s2.silenceMuted = false) := by
  induction tr with
  | nil =>
      intro s _ _ _ _
      exact ⟨rfl, by simp [tvStates]⟩
  | cons x rest ih =>
      intro s hsm hch hb hsink
      obtain ⟨i, hobs⟩ := hsink x (List.mem_cons_self x rest)
      rw [List.map_cons, List.chain'_cons] at hch
      obtain ⟨hls, hch2⟩ := hch
      by_cases hloud : s.silenceThresholdDb < x.db
      · obtain ⟨ha, hst, hsm2, hlast, hthr, hdur, _, _⟩ :=
          tvStep_loud_noMute s x i hobs hsm hloud
        have hrest := ih (tvStep s x).1 hsm2
          (by rw [hlast]; exact hch2)
          (by
            intro pre y post hdecomp hy
            rw [hthr] at hy
            rw [hlast, hdur, hthr]
            rcases hb (x :: pre) y post (by rw [hdecomp]; rfl) hy with hclose | ⟨z, hz, hzl, hzc⟩
            · left
              have : y.t - x.t ≤ y.t - s.lastSoundTime := by linarith
              linarith
            · rcases List.mem_cons.mp hz with rfl | hz2
              · left; exact hzc
              · right; exact ⟨z, hz2, hzl, hzc⟩)
          (fun y hy => hsink y (List.mem_cons_of_mem x hy))
        constructor
        · simp only [tvRun]
          rw [ha, hrest.1]
          rfl
        · intro s2 hs2
          simp only [tvStates, List.mem_cons] at hs2
          rcases hs2 with rfl | hs2
          · exact ⟨hst, hsm2⟩
          · exact hrest.2 s2 hs2
      · have hs2 : x.db ≤ s.silenceThresholdDb := not_lt.mp hloud
        have hshort : x.t - s.lastSoundTime < s.silenceDuration := by
          rcases hb [] x rest rfl hs2 with hclose | ⟨y, hy, _, _⟩
          · exact hclose
          · exact absurd hy (List.not_mem_nil y)
        obtain ⟨ha, hst, hsm2, hlast, hthr, hdur, _, _⟩ :=
          tvStep_silent_short s x i hobs hs2 hshort
        have hrest := ih (tvStep s x).1 (hsm2.trans hsm)
          (by rw [hlast]; exact chainLe_cons_of_le hls hch2)
          (by
            intro pre y post hdecomp hy
            rw [hthr] at hy
            rw [hlast, hdur, hthr]
            rcases hb (x :: pre) y post (by rw [hdecomp]; rfl) hy with hclose | ⟨z, hz, hzl, hzc⟩
            · left; exact hclose
            · rcases List.mem_cons.mp hz with rfl | hz2
              · exact absurd hzl (not_lt.mpr hs2)
              · right; exact ⟨z, hz2, hzl, hzc⟩)
          (fun y hy => hsink y (List.mem_cons_of_mem x hy))
        constructor
        · simp only [tvRun]
          rw [ha, hrest.1]
          rfl
        · intro s2 hmem
          simp only [tvStates, List.mem_cons] at hmem
          rcases hmem with rfl | hmem
          · exact ⟨hst, hsm2.trans hsm⟩
          · exact hrest.2 s2 hmem

theorem tvRun_sustainedSilence (tr : List TVSample) : ∀ (s : TVState),
    s.silenceMuted = true →
    (∀ x ∈ tr, x.db ≤ s.silenceThresholdDb ∧ (∃ i, x.obs = SinkObs.sink i) ∧
        x.t - s.lastSoundTime ≥ s.silenceDuration) →
    (tvRun s tr).2 = [] ∧
    (∀ s2 ∈ tvStates s tr, s2.stState = PlaybackState.idle ∧ s2.silenceMuted = true) := by
  induction tr with
  | nil =>
      intro s _ _
      exact ⟨rfl, by simp [tvStates]⟩
  | cons x rest ih =>
      intro s hsm hx
      obtain ⟨hs2, ⟨i, hobs⟩, hlong⟩ := hx x (List.mem_cons_self x rest)
      obtain ⟨ha, hst, hsm2, hlast, hthr, hdur, _, _⟩ :=
        tvStep_silence_already s x i hobs hs2 hlong hsm
      have hrest := ih (tvStep s x).1 hsm2
        (by
          intro y hy
          obtain ⟨h1, h2, h3⟩ := hx y (List.mem_cons_of_mem x hy)
          rw [hthr, hlast, hdur]
          exact ⟨h1, h2, h3⟩)
      constructor
      · simp only [tvRun]
        rw [ha, hrest.1]
        rfl
      · intro s2 hmem
        simp only [tvStates, List.mem_cons] at hmem
        rcases hmem with rfl | hmem
        · exact ⟨hst, hsm2⟩
        · exact hrest.2 s2 hmem

theorem tvRun_allLoud (tr : List TVSample) : ∀ (s : TVState),
    s.silenceMuted = false →
    (∀ x ∈ tr, s.silenceThresholdDb < x.db ∧ ∃ i, x.obs = SinkObs.sink i) →
    (tvRun s tr).2 = [] ∧
    (∀ s2 ∈ tvStates s tr, s2.stState = PlaybackState.playing ∧ s2.silenceMuted = false) := by
  induction tr with
  | nil =>
      intro s _ _
      exact ⟨rfl, by simp [tvStates]⟩
  | cons x rest ih =>
      intro s hsm hx
      obtain ⟨hloud, ⟨i, hobs⟩⟩ := hx x (List.mem_cons_self x rest)
      obtain ⟨ha, hst, hsm2, hlast, hthr, hdur, _, _⟩ :=
        tvStep_loud_noMute s x i hobs hsm hloud
      have hrest := ih (tvStep s x).1 hsm2
        (by
          intro y hy
          obtain ⟨h1, h2⟩ := hx y (List.mem_cons_of_mem x hy)
          rw [hthr]
          exact ⟨h1, h2⟩)
      constructor
      · simp only [tvRun]
        rw [ha, hrest.1]
        rfl
      · intro s2 hmem
        simp only [tvStates, List.mem_cons] at hmem
        rcases hmem with rfl | hmem
        · exact ⟨hst, hsm2⟩
        · exact hrest.2 s2 hmem

/-- Claim C4: silence hysteresis of the TV polling step.  (1) Along any trace
whose silent samples each lie within the silence duration of an earlier loud
sample (or of the initial last-sound time), the reported state never becomes
Idle, no mute action is issued, and the silence-mute flag stays clear.
(2) From a clean state (auto-mute on, not user-muted), a nonempty all-silent
trace whose every sample is beyond the silence duration reports Idle
throughout and issues exactly one mute action, namely engaging the mute
(value true) and setting the silence-mute flag.  (3) From a silence-muted
state (auto-mute on), a nonempty all-loud trace issues exactly one mute
action, restoring the user-requested mute value, clears the flag, and reports
Playing throughout. -/
theorem c4_silence_hysteresis :
    (∀ (tr : List TVSample) (s : TVState),
        s.silenceMuted = false →
        List.Chain' (· ≤ ·) (s.lastSoundTime :: tr.map TVSample.t) →
        (∀ pre x post, tr = pre ++ x :: post → x.db ≤ s.silenceThresholdDb →
            x.t - s.lastSoundTime < s.silenceDuration ∨
            ∃ y ∈ pre, s.silenceThresholdDb < y.db ∧ x.t - y.t < s.silenceDuration) →
        (∀ x ∈ tr, ∃ i, x.obs = SinkObs.sink i) →
        (tvRun s tr).2 = [] ∧
        (∀ s2 ∈ tvStates s tr,
            s2.stState = PlaybackState.playing ∧ s2.silenceMuted = false)) ∧
    (∀ (tr : List TVSample) (s : TVState),
        s.silenceMuted = false → s.autoMuteEnabled = true → s.userMuted = false →
        (∀ x ∈ tr, x.db ≤ s.silenceThresholdDb ∧ (∃ i, x.obs = SinkObs.sink i) ∧
            x.t - s.lastSoundTime ≥ s.silenceDuration) →
        tr ≠ [] →
        (tvRun s tr).2 = [true] ∧
        (∀ s2 ∈ tvStates s tr,
            s2.stState = PlaybackState.idle ∧ s2.silenceMuted = true)) ∧
    (∀ (tr : List TVSample) (s : TVState),
        s.silenceMuted = true → s.autoMuteEnabled = true →
        (∀ x ∈ tr, s.silenceThresholdDb < x.db ∧ ∃ i, x.obs = SinkObs.sink i) →
        tr ≠ [] →
        (tvRun s tr).2 = [s.userMuted] ∧
        (∀ s2 ∈ tvStates s tr,
            s2.stState = PlaybackState.playing ∧ s2.silenceMuted = false)) := by
  refine ⟨tvRun_brief, ?_, ?_⟩
  · intro tr s hsm hA hum hx htr
    cases tr with
    | nil => exact absurd rfl htr
    | cons x rest =>
        obtain ⟨hs2, ⟨i, hobs⟩, hlong⟩ := hx x (List.mem_cons_self x rest)
        obtain ⟨ha, hst, hsm2, hlast, hthr, hdur, _, _⟩ :=
          tvStep_silence_engage s x i hobs hs2 hlong hA hsm hum
        have hrest := tvRun_sustainedSilence rest (tvStep s x).1 hsm2
          (by
            intro y hy
            obtain ⟨h1, h2, h3⟩ := hx y (List.mem_cons_of_mem x hy)
            rw [hthr, hlast, hdur]
            exact ⟨h1, h2, h3⟩)
        constructor
        · simp only [tvRun]
          rw [ha, hrest.1]
          rfl
        · intro s2 hmem
          simp only [tvStates, List.mem_cons] at hmem
          rcases hmem with rfl | hmem
          · exact ⟨hst, hsm2⟩
          · exact hrest.2 s2 hmem
  · intro tr s hsm hA hx htr
    cases tr with
    | nil => exact absurd rfl htr
    | cons x rest =>
        obtain ⟨hloud, ⟨i, hobs⟩⟩ := hx x (List.mem_cons_self x rest)
        obtain ⟨ha, hst, hsm2, hlast, hthr, hdur, _, _⟩ :=
          tvStep_loud_resume s x i hobs hsm hA hloud
        have hrest := tvRun_allLoud rest (tvStep s x).1 hsm2
          (by
            intro y hy
            obtain ⟨h1, h2⟩ := hx y (List.mem_cons_of_mem x hy)
            rw [hthr]
            exact ⟨h1, h2⟩)
        constructor
        · simp only [tvRun]
          rw [ha, hrest.1]
          rfl
        · intro s2 hmem
          simp only [tvStates, List.mem_cons] at hmem
          rcases hmem with rfl | hmem
          · exact ⟨hst, hsm2⟩
          · exact hrest.2 s2 hmem

/-- The TV state at pipeline start: no sound seen yet, nothing muted. -/
def tvQuietStart : TVState := { tvStateEx with lastSoundTime := 0 }

/-- The TV state while auto-muted by silence. -/
def tvSilenceMutedEx : TVState := { tvStateEx with silenceMuted := true }

/-- Concrete instantiation of the C4 theorem: a loud sample within the
window, a sustained-silence sample, and a recovery sample. -/
theorem c4_silence_hysteresis_witness :
    (tvRun tvQuietStart [{ t := 1, db := -20, obs := .sink { volume := 40, muted := false } }]).2
      = [] ∧
    (tvRun tvQuietStart [{ t := 5, db := -80, obs := .sink { volume := 40, muted := false } }]).2
      = [true] ∧
    (tvRun tvSilenceMutedEx
        [{ t := 11, db := -20, obs := .sink { volume := 40, muted := false } }]).2
      = [tvSilenceMutedEx.userMuted] := by
  refine ⟨?_, ?_, ?_⟩
  · refine (c4_silence_hysteresis.1 _ tvQuietStart rfl ?_ ?_ ?_).1
    · simp only [tvQuietStart, tvStateEx, List.map_cons, List.map_nil]
      refine List.chain'_cons.mpr ⟨by norm_num, by simp⟩
    · intro pre x post h hx
      cases pre with
      | nil =>
          simp only [List.nil_append, List.cons.injEq] at h
          obtain ⟨rfl, -⟩ := h
          norm_num [tvQuietStart, tvStateEx] at hx
      | cons p pr => simp at h
    · intro x hx
      simp only [List.mem_singleton] at hx
      subst hx
      exact ⟨{ volume := 40, muted := false }, rfl⟩
  · refine (c4_silence_hysteresis.2.1 _ tvQuietStart rfl rfl rfl ?_
      (List.cons_ne_nil _ _)).1
    intro x hx
    simp only [List.mem_singleton] at hx
    subst hx
    refine ⟨by norm_num [tvQuietStart, tvStateEx],
      ⟨{ volume := 40, muted := false }, rfl⟩, by norm_num [tvQuietStart, tvStateEx]⟩
  · refine (c4_silence_hysteresis.2.2 _ tvSilenceMutedEx rfl rfl ?_
      (List.cons_ne_nil _ _)).1
    intro x hx
    simp only [List.mem_singleton] at hx
    subst hx
    exact ⟨by norm_num [tvSilenceMutedEx, tvStateEx],
      ⟨{ volume := 40, muted := false }, rfl⟩⟩

end MediaBridge
